import Mathlib

/-!
Shallow embedding of the ERT cluster job-queue subsystem and of the
`update_data_type` container, for checking the natural-language
specification against the code.

The repository sources available are the torque driver unit test
(`src/devel/libjob_queue/tests/job_torque_test.c`) and the analysis update
header (`src/libres/lib/include/ert/analysis/update.hpp`).  The driver and
queue-manager implementations themselves are not among the sources, so
those parts are modelled from the specification, as marked on each
definition.
-/

namespace ErtQueue

/-! ## Driver option table (spec §3, §4.1)

Modelled from the spec: the driver implementations (torque_driver.c and
friends) are not under src/; only the torque driver's unit test is.  Each
driver type owns an immutable set of recognized option keys with
compiled-in defaults; `set_option` stores a value and returns true iff the
key is recognized, `get_option` returns the stored value or the default.
We model a driver type by an arbitrary key type `K`, a recognizer from
option-name strings to keys, and a default table. -/

/-- A driver's mutable option state: for each recognized key, the
explicitly stored value, if any. -/
structure OptionDriver (K : Type) where
  opts : K → Option String

/-- Modelled from the spec: `set_option(key, value) -> bool` — true and
value stored if `key` is recognized by this driver type, false and no
state change otherwise (spec §4.1). -/
def driver_set_option {K : Type} [DecidableEq K] (recognize : String → Option K)
    (d : OptionDriver K) (k v : String) : Bool × OptionDriver K :=
  match recognize k with
  | some key => (true, ⟨fun k2 => if k2 = key then some v else d.opts k2⟩)
  | none => (false, d)

/-- Modelled from the spec: `get_option(key) -> string` — configured value
if set, else the compiled-in default for that key; an undefined key for
the driver type is a caller error, modelled as `none` (spec §4.1). -/
def driver_get_option {K : Type} (recognize : String → Option K)
    (defaults : K → String) (d : OptionDriver K) (k : String) : Option String :=
  match recognize k with
  | some key => some ((d.opts key).getD (defaults key))
  | none => none

/-! ### The torque driver instance

Key names and defaults as exercised by
`src/devel/libjob_queue/tests/job_torque_test.c`; the constants
`TORQUE_QSUB_CMD`, ..., `TORQUE_DEFAULT_QSUB_CMD`, ... come from the
missing header `ert/job_queue/torque_driver.h` and are modelled from the
spec (§6: submit/status/kill command keys, queue name, cpu-count default
"1", node-count default "1"). -/

/-- The six option keys the torque driver type recognizes. -/
inductive TorqueKey : Type
  | qsubCmd
  | qstatCmd
  | qdelCmd
  | queueName
  | numCpus
  | numNodes
deriving DecidableEq

def TORQUE_QSUB_CMD : String := "QSUB_CMD"
def TORQUE_QSTAT_CMD : String := "QSTAT_CMD"
def TORQUE_QDEL_CMD : String := "QDEL_CMD"
def TORQUE_QUEUE : String := "QUEUE"
def TORQUE_NUM_CPUS : String := "NUM_CPUS"
def TORQUE_NUM_NODES : String := "NUM_NODES"

/-- Modelled from the spec: compiled-in default submit command identifier. -/
def TORQUE_DEFAULT_QSUB_CMD : String := "qsub"
/-- Modelled from the spec: compiled-in default status command identifier. -/
def TORQUE_DEFAULT_QSTAT_CMD : String := "qstat"
/-- Modelled from the spec: compiled-in default kill command identifier. -/
def TORQUE_DEFAULT_QDEL_CMD : String := "qdel"

/-- Which option-name strings the torque driver type recognizes. -/
def torqueRecognize (s : String) : Option TorqueKey :=
  if s = TORQUE_QSUB_CMD then some .qsubCmd
  else if s = TORQUE_QSTAT_CMD then some .qstatCmd
  else if s = TORQUE_QDEL_CMD then some .qdelCmd
  else if s = TORQUE_QUEUE then some .queueName
  else if s = TORQUE_NUM_CPUS then some .numCpus
  else if s = TORQUE_NUM_NODES then some .numNodes
  else none

/-- Modelled from the spec: the torque driver's compiled-in default per
key (cpu-count "1", node-count "1", command identifiers, empty queue). -/
def torqueDefaults : TorqueKey → String
  | .qsubCmd => TORQUE_DEFAULT_QSUB_CMD
  | .qstatCmd => TORQUE_DEFAULT_QSTAT_CMD
  | .qdelCmd => TORQUE_DEFAULT_QDEL_CMD
  | .queueName => ""
  | .numCpus => "1"
  | .numNodes => "1"

/-- A freshly allocated torque driver: no option explicitly set. -/
def torque_driver_alloc : OptionDriver TorqueKey := ⟨fun _ => none⟩

def torque_driver_set_option (d : OptionDriver TorqueKey) (k v : String) :
    Bool × OptionDriver TorqueKey :=
  driver_set_option torqueRecognize d k v

def torque_driver_get_option (d : OptionDriver TorqueKey) (k : String) :
    Option String :=
  driver_get_option torqueRecognize torqueDefaults d k

/-! ## Job entity, state machine and queue manager (spec §3, §4.3, §4.4)

Modelled from the spec: the job_queue / queue-manager implementation is
not under src/.  The model below follows §3's state machine, §4.3's
resubmission policy and §4.4's `poll_once` / `kill` contract.  Driver
behaviour (submit outcome, status result) is supplied by oracles, so the
theorems quantify over every possible driver behaviour. -/

/-- Per-Job states of the queue manager's state machine (spec §3).
`failed` is the transient post-failure state resolved by the retry/dead
policy within the same poll cycle. -/
inductive JobState : Type
  | notSubmitted
  | submitted
  | running
  | success
  | failed
  | dead
deriving DecidableEq

/-- The canonical driver status results (spec §4.1):
{PENDING, RUNNING, DONE, EXIT, UNKNOWN}. -/
inductive DriverStatus : Type
  | pending
  | runningStat
  | done
  | exited
  | unknown
deriving DecidableEq

/-- A schedulable unit (spec §3): state, submit-attempt counter, last
error, external id (absent before submission), and the count of
consecutive UNKNOWN poll results used for stall escalation.  The payload
is immutable and irrelevant to the state machine, so it is omitted. -/
structure Job where
  state : JobState
  attempts : Nat
  lastError : Option String
  extId : Option Nat
  unknownCount : Nat
deriving DecidableEq

/-- Queue-manager configuration: retry budget, concurrency cap and the
stall threshold of consecutive UNKNOWN polls (spec §4.3, §4.4, §9). -/
structure QMConfig where
  maxAttempts : Nat
  maxRunning : Nat
  stallThreshold : Nat

/-- A job as accepted by `enqueue` (spec §4.4): state `notSubmitted`,
no attempts, no error, no external id. -/
def freshJob : Job :=
  { state := .notSubmitted, attempts := 0, lastError := none,
    extId := none, unknownCount := 0 }

/-- The events through which the queue manager mutates a job: the result
of a driver submit call, the result of a driver status call, a kill
request (with the driver kill call's outcome), and the per-poll
resolution of the retry/dead policy for `failed` jobs. -/
inductive Event : Type
  | submitRes (res : Option Nat) (err : String)
  | statusRes (s : DriverStatus)
  | killCmd (driverOk : Bool)
  | retryResolve

/-- Modelled from the spec: the single-job transition function applied by
the queue manager.  Terminal jobs (`success`, `dead`) are never mutated
(spec §3: "SUCCESS and DEAD are terminal — no further mutation").
A submit failure moves the job to `failed` with the attempt counted
(spec §4.4: "counts as a failed attempt and follows the same retry/DEAD
policy as a post-submission FAILED").  A status result maps PENDING to no
change, RUNNING to `running`, DONE to `success`, EXIT to `failed`;
UNKNOWN leaves the state unchanged but counts toward the stall threshold,
past which the job is escalated to `failed` (spec §4.4).  `kill` forces
the local state to `dead` regardless of the driver call's outcome
(spec §4.4).  `retryResolve` moves a `failed` job back to `notSubmitted`
while attempt budget remains, else to `dead` (spec §4.3). -/
def applyEvent (cfg : QMConfig) (ev : Event) (j : Job) : Job :=
  if j.state = .success ∨ j.state = .dead then j
  else
    match ev with
    | .submitRes res err =>
      if j.state = .notSubmitted then
        match res with
        | some id =>
          { j with state := .submitted, attempts := j.attempts + 1,
                   extId := some id, unknownCount := 0 }
        | none =>
          { j with state := .failed, attempts := j.attempts + 1,
                   lastError := some err }
      else j
    | .statusRes s =>
      if j.state = .submitted ∨ j.state = .running then
        match s with
        | .pending => j
        | .runningStat => { j with state := .running, unknownCount := 0 }
        | .done => { j with state := .success }
        | .exited => { j with state := .failed, lastError := some "EXIT" }
        | .unknown =>
          if cfg.stallThreshold < j.unknownCount + 1 then
            { j with state := .failed, unknownCount := j.unknownCount + 1,
                     lastError := some "stalled" }
          else
            { j with unknownCount := j.unknownCount + 1 }
      else j
    | .killCmd _ => { j with state := .dead }
    | .retryResolve =>
      if j.state = .failed then
        if j.attempts < cfg.maxAttempts then
          { j with state := .notSubmitted, extId := none }
        else
          { j with state := .dead }
      else j

/-- Whether a job currently occupies a concurrency slot: it is in state
`submitted` or `running` (a job the driver is tracking). -/
def isActive (j : Job) : Bool :=
  match j.state with
  | .submitted => true
  | .running => true
  | _ => false

/-- The number of jobs simultaneously in `submitted`/`running`: the
non-terminal jobs tracked by the external scheduler. -/
def countActive (l : List Job) : Nat :=
  l.countP isActive

/-- Modelled from the spec: phase (a) of `poll_once` (spec §4.4) —
walk the job list in insertion order and, while submission budget
remains, submit each `notSubmitted` job through the driver submit oracle.
Returns the new job list together with the number of submit calls made. -/
def submitPhase (cfg : QMConfig) (subOracle : Job → Option Nat) :
    List Job → Nat → List Job × Nat
  | [], _ => ([], 0)
  | j :: rest, budget =>
    if j.state = .notSubmitted ∧ 0 < budget then
      let j' := applyEvent cfg (.submitRes (subOracle j) "submit failed") j
      let r := submitPhase cfg subOracle rest (budget - 1)
      (j' :: r.1, r.2 + 1)
    else
      let r := submitPhase cfg subOracle rest budget
      (j :: r.1, r.2)

/-- Modelled from the spec: one orchestration step, `poll_once`
(spec §4.4): (a) submit `notSubmitted` jobs up to
`max_running - currently_non_terminal` (the jobs currently tracked in
`submitted`/`running`); (b) query the driver status for every tracked job
and apply the mapped transition; (c) apply the retry/dead policy for jobs
observed `failed`. -/
def pollOnce (cfg : QMConfig) (subOracle : Job → Option Nat)
    (statOracle : Job → DriverStatus) (l : List Job) : List Job :=
  let l1 := (submitPhase cfg subOracle l (cfg.maxRunning - countActive l)).1
  let l2 := l1.map (fun j => applyEvent cfg (.statusRes (statOracle j)) j)
  l2.map (applyEvent cfg .retryResolve)

/-- The number of submit calls a single `poll_once` performs. -/
def pollSubmitCount (cfg : QMConfig) (subOracle : Job → Option Nat)
    (l : List Job) : Nat :=
  (submitPhase cfg subOracle l (cfg.maxRunning - countActive l)).2

/-- Modelled from the spec: `enqueue` accepts the job immediately in
state `notSubmitted` and does not invoke the driver (spec §4.4). -/
def enqueue (l : List Job) : List Job := l ++ [freshJob]

/-- Modelled from the spec: `kill(local_id)` applied to the job at the
given position (spec §4.4). -/
def killAt (cfg : QMConfig) (driverOk : Bool) : Nat → List Job → List Job
  | _, [] => []
  | 0, j :: rest => applyEvent cfg (.killCmd driverOk) j :: rest
  | n + 1, j :: rest => j :: killAt cfg driverOk n rest

/-- The queue-manager states reachable from an empty queue by any
sequence of `enqueue`, `poll_once` (hence also `wait_until_done`, which
just iterates `poll_once`) and `kill` steps, under arbitrary driver
behaviour. -/
inductive Reachable (cfg : QMConfig) : List Job → Prop
  | init : Reachable cfg []
  | enq {l : List Job} : Reachable cfg l → Reachable cfg (enqueue l)
  | poll {l : List Job} (subOracle : Job → Option Nat)
      (statOracle : Job → DriverStatus) :
      Reachable cfg l → Reachable cfg (pollOnce cfg subOracle statOracle l)
  | kill {l : List Job} (driverOk : Bool) (i : Nat) :
      Reachable cfg l → Reachable cfg (killAt cfg driverOk i l)

/-- The transition edges claimed by the spec's state-machine sentence
(§3): `NOT_SUBMITTED → SUBMITTED → RUNNING → {SUCCESS | FAILED}`,
`FAILED → NOT_SUBMITTED`, `FAILED → DEAD`. -/
def specClaimedEdge : JobState → JobState → Bool
  | .notSubmitted, .submitted => true
  | .submitted, .running => true
  | .running, .success => true
  | .running, .failed => true
  | .failed, .notSubmitted => true
  | .failed, .dead => true
  | _, _ => false

/-- The transition edges the modelled queue manager actually produces:
the spec-claimed ones, plus `NOT_SUBMITTED → FAILED` (submit failure),
`SUBMITTED → {SUCCESS, FAILED}` (a DONE/EXIT/stalled status observed
before the job was ever seen RUNNING), and `kill` forcing any
non-terminal state to `DEAD`. -/
def modelEdge : JobState → JobState → Bool
  | .notSubmitted, .submitted => true
  | .notSubmitted, .failed => true
  | .notSubmitted, .dead => true
  | .submitted, .running => true
  | .submitted, .success => true
  | .submitted, .failed => true
  | .submitted, .dead => true
  | .running, .success => true
  | .running, .failed => true
  | .running, .dead => true
  | .failed, .notSubmitted => true
  | .failed, .dead => true
  | _, _ => false

/-- Iterated `poll_once` against a driver whose submit call fails on
every attempt (the submit oracle constantly returns `none`), starting
from one freshly enqueued job; this is `wait_until_done`'s loop on that
scenario (spec §4.3, §8). -/
def drainFailing (cfg : QMConfig) (statOracle : Job → DriverStatus) :
    Nat → List Job
  | 0 => [freshJob]
  | k + 1 => pollOnce cfg (fun _ => none) statOracle (drainFailing cfg statOracle k)

/-- The single job of the always-failing-submit scenario after `k`
unsuccessful submit attempts, still waiting to be resubmitted. -/
def nsJob (k : Nat) : Job :=
  { state := .notSubmitted, attempts := k,
    lastError := if k = 0 then none else some "submit failed",
    extId := none, unknownCount := 0 }

/-- The single job of the always-failing-submit scenario once its
attempt budget `m` is exhausted: terminal `dead`, last error preserved. -/
def deadAfter (m : Nat) : Job :=
  { state := .dead, attempts := m, lastError := some "submit failed",
    extId := none, unknownCount := 0 }

/-- `k` consecutive polls whose driver status result is UNKNOWN, applied
to a single job. -/
def unknownSteps (cfg : QMConfig) : Nat → Job → Job
  | 0, j => j
  | k + 1, j => applyEvent cfg (.statusRes .unknown) (unknownSteps cfg k j)

end ErtQueue

namespace ErtAnalysis

/-! ## `update_data_type` (src/libres/lib/include/ert/analysis/update.hpp)

Container for all data required for performing an update step: the S, E,
D, R matrices, the optional A matrix, the row-scaling pairs and the
observation mask, plus the flag `has_observations`.  Matrices and
row-scaling objects are opaque to the claims, so they are type
parameters `M` and `RS`. -/

/-- The fields of `analysis::update_data_type` (update.hpp lines 40-48).
`has_observations` carries the in-class initializer `= false`
(update.hpp line 48). -/
structure update_data_type (M RS : Type) where
  S : M
  E : M
  D : M
  R : M
  A : Option M
  obs_mask : List Bool
  A_with_rowscaling : List (M × RS)
  has_observations : Bool

/-- The two constructors the class declares (update.hpp lines 23-38):
the defaulted one and the data-carrying one taking the S, E, D, R
matrices, the optional A, the row-scaling pairs and the observation
mask. -/
inductive UpdateCtorCall (M RS : Type) : Type
  | defaultCtor
  | dataCtor (S_in E_in D_in R_in : M) (A_in : Option M)
      (A_with_rowscaling_in : List (M × RS)) (obs_mask_in : List Bool)

/-- Whether a constructor call is the data-carrying one. -/
def UpdateCtorCall.isDataCtor {M RS : Type} : UpdateCtorCall M RS → Bool
  | .defaultCtor => false
  | .dataCtor _ _ _ _ _ _ _ => true

/-- Construction semantics of `update_data_type` (update.hpp lines
23-38): the defaulted constructor leaves every member default-initialized
— in particular `has_observations = false` from its in-class initializer
— while the data-carrying constructor copies its arguments into the
members and sets `has_observations = true`. -/
def constructUpdateData {M RS : Type} [Inhabited M] :
    UpdateCtorCall M RS → update_data_type M RS
  | .defaultCtor =>
    { S := default, E := default, D := default, R := default, A := none,
      obs_mask := [], A_with_rowscaling := [], has_observations := false }
  | .dataCtor S_in E_in D_in R_in A_in A_with_rowscaling_in obs_mask_in =>
    { S := S_in, E := E_in, D := D_in, R := R_in, A := A_in,
      obs_mask := obs_mask_in, A_with_rowscaling := A_with_rowscaling_in,
      has_observations := true }

end ErtAnalysis

namespace ErtQueue

/-! ## Theorems about the option table -/

/-- C1: for every driver type (any key type, recognizer and default
table), every recognized option key and every string value, `set_option`
returns true and a subsequent `get_option` on the resulting driver state
returns exactly the value just set. -/
theorem set_get_roundtrip {K : Type} [DecidableEq K]
    (recognize : String → Option K) (defaults : K → String)
    (d : OptionDriver K) (k v : String) (key : K)
    (h : recognize k = some key) :
    (driver_set_option recognize d k v).1 = true ∧
      driver_get_option recognize defaults (driver_set_option recognize d k v).2 k = some v := by
  unfold driver_set_option driver_get_option
  rw [h]
  simp

/-- Witness for C1 at the torque driver: setting `NUM_CPUS` to "42" on a
fresh driver succeeds and reads back "42". -/
theorem set_get_roundtrip_witness :
    torqueRecognize TORQUE_NUM_CPUS = some TorqueKey.numCpus ∧
      ((driver_set_option torqueRecognize torque_driver_alloc TORQUE_NUM_CPUS "42").1 = true ∧
        driver_get_option torqueRecognize torqueDefaults
          (driver_set_option torqueRecognize torque_driver_alloc TORQUE_NUM_CPUS "42").2
          TORQUE_NUM_CPUS = some "42") :=
  ⟨by decide,
   set_get_roundtrip torqueRecognize torqueDefaults torque_driver_alloc
     TORQUE_NUM_CPUS "42" TorqueKey.numCpus (by decide)⟩

/-- C2: on a freshly allocated torque driver with no option explicitly
set, `get_option` on every recognized key returns that key's compiled-in
default (and `none` on unrecognized keys); in particular the six
recognized keys return the default submit/status/kill command
identifiers, the default queue name, and "1" for both the cpu-count and
node-count keys. -/
theorem fresh_driver_defaults :
    (∀ k : String, torque_driver_get_option torque_driver_alloc k =
        (torqueRecognize k).map torqueDefaults) ∧
      torque_driver_get_option torque_driver_alloc TORQUE_QSUB_CMD
        = some TORQUE_DEFAULT_QSUB_CMD ∧
      torque_driver_get_option torque_driver_alloc TORQUE_QSTAT_CMD
        = some TORQUE_DEFAULT_QSTAT_CMD ∧
      torque_driver_get_option torque_driver_alloc TORQUE_QDEL_CMD
        = some TORQUE_DEFAULT_QDEL_CMD ∧
      torque_driver_get_option torque_driver_alloc TORQUE_QUEUE
        = some (torqueDefaults TorqueKey.queueName) ∧
      torque_driver_get_option torque_driver_alloc TORQUE_NUM_CPUS = some "1" ∧
      torque_driver_get_option torque_driver_alloc TORQUE_NUM_NODES = some "1" := by
  refine ⟨fun k => ?_, by decide, by decide, by decide, by decide, by decide,
    by decide⟩
  cases h : torqueRecognize k <;>
    simp [torque_driver_get_option, driver_get_option, h, torque_driver_alloc]

/-- C3: `set_option` on a key the driver type does not recognize returns
false and leaves the driver state — hence every stored and every readable
option value — unchanged. -/
theorem set_unrecognized_frame {K : Type} [DecidableEq K]
    (recognize : String → Option K) (defaults : K → String)
    (d : OptionDriver K) (k v : String)
    (h : recognize k = none) :
    (driver_set_option recognize d k v).1 = false ∧
      (driver_set_option recognize d k v).2 = d ∧
      ∀ k2 : String,
        driver_get_option recognize defaults (driver_set_option recognize d k v).2 k2 =
          driver_get_option recognize defaults d k2 := by
  unfold driver_set_option
  rw [h]
  exact ⟨rfl, rfl, fun _ => rfl⟩

/-- Witness for C3 at the torque driver: the key "NOT_AN_OPTION" is not
recognized, the set fails, and reading `NUM_CPUS` is unchanged. -/
theorem set_unrecognized_frame_witness :
    torqueRecognize "NOT_AN_OPTION" = none ∧
      ((driver_set_option torqueRecognize torque_driver_alloc "NOT_AN_OPTION" "x").1 = false ∧
        (driver_set_option torqueRecognize torque_driver_alloc "NOT_AN_OPTION" "x").2
          = torque_driver_alloc ∧
        ∀ k2 : String,
          driver_get_option torqueRecognize torqueDefaults
              (driver_set_option torqueRecognize torque_driver_alloc "NOT_AN_OPTION" "x").2 k2 =
            driver_get_option torqueRecognize torqueDefaults torque_driver_alloc k2) :=
  ⟨by decide,
   set_unrecognized_frame torqueRecognize torqueDefaults torque_driver_alloc
     "NOT_AN_OPTION" "x" (by decide)⟩

/-- C4: `get_option` on a recognized key is total over driver states: it
always returns a defined string, namely the explicitly set value when one
is set and the compiled-in default otherwise. -/
theorem get_option_total {K : Type} (recognize : String → Option K)
    (defaults : K → String) (d : OptionDriver K) (k : String) (key : K)
    (h : recognize k = some key) :
    ∃ s : String,
      driver_get_option recognize defaults d k = some s ∧
        (d.opts key = some s ∨ (d.opts key = none ∧ s = defaults key)) := by
  refine ⟨(d.opts key).getD (defaults key), ?_, ?_⟩
  · unfold driver_get_option
    rw [h]
  · cases hk : d.opts key with
    | none => exact Or.inr ⟨rfl, by simp [hk]⟩
    | some s0 => exact Or.inl (by simp [hk])

/-- Witness for C4 at the torque driver: on a fresh driver, `NUM_NODES`
is recognized and `get_option` returns a defined string. -/
theorem get_option_total_witness :
    torqueRecognize TORQUE_NUM_NODES = some TorqueKey.numNodes ∧
      ∃ s : String,
        driver_get_option torqueRecognize torqueDefaults torque_driver_alloc
            TORQUE_NUM_NODES = some s ∧
          (torque_driver_alloc.opts TorqueKey.numNodes = some s ∨
            (torque_driver_alloc.opts TorqueKey.numNodes = none ∧
              s = torqueDefaults TorqueKey.numNodes)) :=
  ⟨by decide,
   get_option_total torqueRecognize torqueDefaults torque_driver_alloc
     TORQUE_NUM_NODES TorqueKey.numNodes (by decide)⟩

end ErtQueue

namespace ErtQueue

/-! ## Theorems about the job state machine -/

/-- C5, counterexample: the spec's transition list is not exhaustive —
`kill` on a `running` job moves it to `dead`, an edge outside
`NOT_SUBMITTED → SUBMITTED → RUNNING → {SUCCESS|FAILED}`,
`FAILED → {NOT_SUBMITTED, DEAD}`. -/
theorem claimed_edges_not_exhaustive :
    (applyEvent ⟨2, 2, 2⟩ (.killCmd true)
        { state := .running, attempts := 1, lastError := none,
          extId := some 7, unknownCount := 0 }).state = JobState.dead ∧
      specClaimedEdge JobState.running JobState.dead = false := by
  decide

/-- C5, amended: every queue-manager operation either leaves a job
unchanged or moves it along an edge of the amended relation — the
spec-claimed edges plus `NOT_SUBMITTED → FAILED` (submit failure),
`SUBMITTED → {SUCCESS, FAILED}` (terminal/failure status observed before
RUNNING was seen) and kill edges into `DEAD`; `SUCCESS` and `DEAD` are
terminal (no operation mutates such a job); and the retry policy sends
`FAILED` to `NOT_SUBMITTED` exactly when attempt budget remains, else to
`DEAD`. -/
theorem job_state_machine :
    (∀ (cfg : QMConfig) (ev : Event) (j : Job),
        (applyEvent cfg ev j).state = j.state ∨
          modelEdge j.state (applyEvent cfg ev j).state = true) ∧
    (∀ (cfg : QMConfig) (ev : Event) (j : Job),
        j.state = .success ∨ j.state = .dead → applyEvent cfg ev j = j) ∧
    (∀ (cfg : QMConfig) (j : Job), j.state = .failed →
        (applyEvent cfg .retryResolve j).state =
          if j.attempts < cfg.maxAttempts then .notSubmitted else .dead) := by
  refine ⟨?_, ?_, ?_⟩
  · intro cfg ev j
    rcases j with ⟨st, a, e, x, u⟩
    cases ev with
    | submitRes res err =>
      cases res <;> cases st <;> simp [applyEvent, modelEdge]
    | statusRes s =>
      cases s <;> cases st <;>
        simp [applyEvent, modelEdge] <;> split_ifs <;> simp [modelEdge]
    | killCmd ok => cases st <;> simp [applyEvent, modelEdge]
    | retryResolve =>
      cases st <;> simp [applyEvent, modelEdge]
      split_ifs <;> simp [modelEdge]
  · intro cfg ev j h
    rcases j with ⟨st, a, e, x, u⟩
    cases st <;> simp_all [applyEvent]
  · intro cfg j h
    rcases j with ⟨st, a, e, x, u⟩
    cases st <;> simp_all [applyEvent]
    split_ifs <;> simp

/-- Witness for C5's amended theorem: a concrete `success` job is left
unchanged by a kill request. -/
theorem job_state_machine_witness :
    applyEvent ⟨3, 2, 1⟩ (.killCmd false)
        { state := .success, attempts := 1, lastError := none,
          extId := some 5, unknownCount := 0 } =
      { state := .success, attempts := 1, lastError := none,
        extId := some 5, unknownCount := 0 } :=
  job_state_machine.2.1 ⟨3, 2, 1⟩ (.killCmd false) _ (Or.inl rfl)

end ErtQueue

namespace ErtQueue

/-- One poll of the always-failing-submit scenario: the waiting job's
submit fails, the attempt is counted, and the retry/dead policy either
schedules a resubmission or exhausts the budget. -/
theorem pollOnce_nsJob (cfg : QMConfig) (statOracle : Job → DriverStatus)
    (hR : 0 < cfg.maxRunning) (k : Nat) :
    pollOnce cfg (fun _ => none) statOracle [nsJob k] =
      if k + 1 < cfg.maxAttempts then [nsJob (k + 1)]
      else [deadAfter (k + 1)] := by
  have h2 : submitPhase cfg (fun _ => none) [nsJob k] cfg.maxRunning =
      ([⟨.failed, k + 1, some "submit failed", none, 0⟩], 1) := by
    simp [submitPhase, nsJob, hR, applyEvent]
  have hc : countActive [nsJob k] = 0 := rfl
  simp only [pollOnce, hc, Nat.sub_zero, h2, List.map_cons, List.map_nil]
  rw [show applyEvent cfg
      (Event.statusRes (statOracle ⟨.failed, k + 1, some "submit failed", none, 0⟩))
      ⟨.failed, k + 1, some "submit failed", none, 0⟩ =
      ⟨.failed, k + 1, some "submit failed", none, 0⟩ from rfl]
  by_cases h : k + 1 < cfg.maxAttempts
  · rw [if_pos h]
    simp [applyEvent, h, nsJob]
  · rw [if_neg h]
    simp [applyEvent, h, deadAfter]

/-- A dead job is absorbing for `poll_once`: no phase touches it. -/
theorem pollOnce_deadAbsorb (cfg : QMConfig) (subOracle : Job → Option Nat)
    (statOracle : Job → DriverStatus) (m : Nat) :
    pollOnce cfg subOracle statOracle [deadAfter m] = [deadAfter m] := by
  simp [pollOnce, submitPhase, countActive, isActive, deadAfter, applyEvent]

/-- Exact trajectory of the always-failing-submit drain: after `k` polls
the job is waiting with `k` counted attempts while `k < maxAttempts`,
and permanently `dead` with exactly `maxAttempts` attempts otherwise. -/
theorem drainFailing_spec (cfg : QMConfig) (statOracle : Job → DriverStatus)
    (hA : 0 < cfg.maxAttempts) (hR : 0 < cfg.maxRunning) (k : Nat) :
    drainFailing cfg statOracle k =
      if k < cfg.maxAttempts then [nsJob k] else [deadAfter cfg.maxAttempts] := by
  induction k with
  | zero =>
    simp [drainFailing, hA, nsJob, freshJob]
  | succ k ih =>
    rw [drainFailing, ih]
    by_cases h : k < cfg.maxAttempts
    · rw [if_pos h, pollOnce_nsJob cfg statOracle hR k]
      by_cases h2 : k + 1 < cfg.maxAttempts
      · rw [if_pos h2, if_pos h2]
      · have hEq : cfg.maxAttempts = k + 1 :=
          Nat.le_antisymm (Nat.not_lt.mp h2) h
        rw [if_neg h2, if_neg h2, hEq]
    · have h2 : ¬(k + 1 < cfg.maxAttempts) := fun hc =>
        h (Nat.lt_of_le_of_lt (Nat.le_succ k) hc)
      rw [if_neg h, if_neg h2]
      exact pollOnce_deadAbsorb cfg _ statOracle cfg.maxAttempts

/-- C6: when the driver's submit call fails on every attempt, the job is
still waiting with `k` counted attempts after `k < max_attempts` polls,
and from the `max_attempts`-th poll on it is terminal `dead` with exactly
`max_attempts` counted attempts and `last_error` set; the dead job is
never polled into a different state again and triggers no further submit
calls. -/
theorem submit_always_fails_reaches_dead (cfg : QMConfig)
    (statOracle : Job → DriverStatus)
    (hA : 0 < cfg.maxAttempts) (hR : 0 < cfg.maxRunning) :
    (∀ k : Nat, drainFailing cfg statOracle k =
        if k < cfg.maxAttempts then [nsJob k] else [deadAfter cfg.maxAttempts]) ∧
      (deadAfter cfg.maxAttempts).state = .dead ∧
      (deadAfter cfg.maxAttempts).attempts = cfg.maxAttempts ∧
      (deadAfter cfg.maxAttempts).lastError = some "submit failed" ∧
      (∀ (subOracle : Job → Option Nat) (statOracle2 : Job → DriverStatus),
        pollOnce cfg subOracle statOracle2 [deadAfter cfg.maxAttempts] =
          [deadAfter cfg.maxAttempts]) ∧
      (∀ subOracle : Job → Option Nat,
        pollSubmitCount cfg subOracle [deadAfter cfg.maxAttempts] = 0) := by
  refine ⟨drainFailing_spec cfg statOracle hA hR, rfl, rfl, rfl, ?_, ?_⟩
  · intro subOracle statOracle2
    exact pollOnce_deadAbsorb cfg subOracle statOracle2 cfg.maxAttempts
  · intro subOracle
    simp [pollSubmitCount, submitPhase, deadAfter, countActive, isActive]

/-- Witness for C6: with `max_attempts = 2`, `max_running = 1`, a job
whose submits always fail is `dead` with 2 attempts after 5 polls. -/
theorem submit_always_fails_reaches_dead_witness :
    drainFailing ⟨2, 1, 3⟩ (fun _ => DriverStatus.pending) 5 = [deadAfter 2] := by
  have h := (submit_always_fails_reaches_dead ⟨2, 1, 3⟩
    (fun _ => DriverStatus.pending) (by decide) (by decide)).1 5
  simpa using h

end ErtQueue

namespace ErtQueue

/-- C7, counterexample: `kill` on a job already terminal in `SUCCESS`
does not move it to `DEAD` — terminal states are never mutated — so the
claim does not hold for every tracked job. -/
theorem kill_success_counterexample :
    killAt ⟨2, 2, 2⟩ false 0
        [⟨.success, 1, none, some 3, 0⟩] = [⟨.success, 1, none, some 3, 0⟩] ∧
      (applyEvent ⟨2, 2, 2⟩ (.killCmd false)
        ⟨.success, 1, none, some 3, 0⟩).state ≠ JobState.dead := by
  decide

/-- C7, amended: for every non-terminal tracked job, `kill` leaves the
job's local state `DEAD` when it returns, regardless of whether the
underlying driver kill call succeeds or fails; in particular kill on a
`RUNNING` job always results in local state `DEAD`. -/
theorem kill_forces_dead (cfg : QMConfig) (driverOk : Bool) (l : List Job)
    (i : Nat) (j : Job) (hj : l[i]? = some j)
    (hs : j.state ≠ .success) (hd : j.state ≠ .dead) :
    (killAt cfg driverOk i l)[i]? =
        some (applyEvent cfg (.killCmd driverOk) j) ∧
      (applyEvent cfg (.killCmd driverOk) j).state = .dead := by
  constructor
  · induction l generalizing i with
    | nil => simp at hj
    | cons a rest ih =>
      cases i with
      | zero =>
        simp only [List.getElem?_cons_zero, Option.some_inj] at hj
        subst hj
        simp [killAt]
      | succ n =>
        simp only [List.getElem?_cons_succ] at hj
        simpa [killAt] using ih n hj
  · rcases j with ⟨st, a, e, x, u⟩
    cases st <;> simp_all [applyEvent]

/-- Witness for C7's amended theorem: killing the running job at
position 0 leaves it locally dead even though the driver kill failed. -/
theorem kill_forces_dead_witness :
    (killAt ⟨2, 2, 2⟩ false 0 [⟨.running, 1, none, some 9, 0⟩])[0]? =
        some (applyEvent ⟨2, 2, 2⟩ (.killCmd false) ⟨.running, 1, none, some 9, 0⟩) ∧
      (applyEvent ⟨2, 2, 2⟩ (.killCmd false)
        ⟨.running, 1, none, some 9, 0⟩).state = .dead :=
  kill_forces_dead ⟨2, 2, 2⟩ false _ 0 _ rfl (by decide) (by decide)

/-- The number of submit calls one submission phase makes never exceeds
its budget. -/
theorem submitPhase_count_le (cfg : QMConfig) (subOracle : Job → Option Nat) :
    ∀ (l : List Job) (b : Nat), (submitPhase cfg subOracle l b).2 ≤ b := by
  intro l
  induction l with
  | nil => intro b; simp [submitPhase]
  | cons j rest ih =>
    intro b
    by_cases h : j.state = .notSubmitted ∧ 0 < b
    · obtain ⟨h1, hb⟩ := h
      simp only [submitPhase]
      rw [if_pos (show j.state = .notSubmitted ∧ 0 < b from ⟨h1, hb⟩)]
      show (submitPhase cfg subOracle rest (b - 1)).2 + 1 ≤ b
      have h2 := ih (b - 1)
      omega
    · simp only [submitPhase]
      rw [if_neg h]
      show (submitPhase cfg subOracle rest b).2 ≤ b
      exact ih b

/-- Unfolding the active count over a cons cell. -/
theorem countActive_cons (j : Job) (l : List Job) :
    countActive (j :: l) = countActive l + if isActive j then 1 else 0 := by
  simp [countActive, List.countP_cons]

/-- The submission phase adds at most its budget to the number of
active (`submitted`/`running`) jobs. -/
theorem submitPhase_active_le (cfg : QMConfig) (subOracle : Job → Option Nat) :
    ∀ (l : List Job) (b : Nat),
      countActive (submitPhase cfg subOracle l b).1 ≤ countActive l + b := by
  intro l
  induction l with
  | nil => intro b; simp [submitPhase, countActive]
  | cons j rest ih =>
    intro b
    by_cases h : j.state = .notSubmitted ∧ 0 < b
    · obtain ⟨h1, hb⟩ := h
      have hj : isActive j = false := by simp [isActive, h1]
      have h2 := ih (b - 1)
      simp only [submitPhase]
      rw [if_pos (show j.state = .notSubmitted ∧ 0 < b from ⟨h1, hb⟩)]
      show countActive (applyEvent cfg (.submitRes (subOracle j) "submit failed") j
          :: (submitPhase cfg subOracle rest (b - 1)).1) ≤ countActive (j :: rest) + b
      rw [countActive_cons, countActive_cons]
      simp only [hj, Bool.false_eq_true, if_false]
      by_cases hj2 : isActive (applyEvent cfg
          (.submitRes (subOracle j) "submit failed") j) = true
      · rw [if_pos hj2]
        omega
      · rw [if_neg hj2]
        omega
    · have h1 := ih b
      simp only [submitPhase]
      rw [if_neg h]
      show countActive (j :: (submitPhase cfg subOracle rest b).1)
          ≤ countActive (j :: rest) + b
      rw [countActive_cons, countActive_cons]
      omega

/-- Mapping a function that never activates a job does not increase the
active count. -/
theorem countActive_map_le (f : Job → Job)
    (hf : ∀ j, isActive (f j) = true → isActive j = true) (l : List Job) :
    countActive (l.map f) ≤ countActive l := by
  simp only [countActive, List.countP_map]
  exact List.countP_mono_left (fun j _ h => hf j (by simpa using h))

/-- A status-poll transition never moves a job into
`submitted`/`running` from outside. -/
theorem isActive_statusRes_le (cfg : QMConfig) (s : DriverStatus) (j : Job) :
    isActive (applyEvent cfg (.statusRes s) j) = true → isActive j = true := by
  rcases j with ⟨st, a, e, x, u⟩
  cases st <;> cases s <;> simp [applyEvent, isActive]

/-- The retry/dead resolution never moves a job into
`submitted`/`running`. -/
theorem isActive_retryResolve_le (cfg : QMConfig) (j : Job) :
    isActive (applyEvent cfg .retryResolve j) = true → isActive j = true := by
  rcases j with ⟨st, a, e, x, u⟩
  cases st <;> simp [applyEvent, isActive]
  split_ifs <;> simp [isActive]

/-- A kill never moves a job into `submitted`/`running`. -/
theorem isActive_killCmd_le (cfg : QMConfig) (ok : Bool) (j : Job) :
    isActive (applyEvent cfg (.killCmd ok) j) = true → isActive j = true := by
  rcases j with ⟨st, a, e, x, u⟩
  cases st <;> simp [applyEvent, isActive]

/-- `kill` does not increase the number of active jobs. -/
theorem countActive_killAt_le (cfg : QMConfig) (ok : Bool) :
    ∀ (i : Nat) (l : List Job),
      countActive (killAt cfg ok i l) ≤ countActive l := by
  intro i l
  induction l generalizing i with
  | nil => simp [killAt]
  | cons j rest ih =>
    cases i with
    | zero =>
      show countActive (applyEvent cfg (.killCmd ok) j :: rest) ≤
        countActive (j :: rest)
      rw [countActive_cons, countActive_cons]
      by_cases hj : isActive (applyEvent cfg (.killCmd ok) j) = true
      · have h2 := isActive_killCmd_le cfg ok j hj
        rw [if_pos hj, if_pos h2]
      · rw [if_neg hj]
        omega
    | succ n =>
      show countActive (j :: killAt cfg ok n rest) ≤ countActive (j :: rest)
      rw [countActive_cons, countActive_cons]
      have h2 := ih n
      omega

/-- C8: in every queue-manager state reachable by any sequence of
enqueue / poll_once / wait_until_done / kill steps under arbitrary driver
behaviour, the number of jobs simultaneously in `SUBMITTED`/`RUNNING`
never exceeds `max_running`; and each `poll_once` performs at most
`max_running` minus the count of currently tracked non-terminal
(`SUBMITTED`/`RUNNING`) jobs submit calls. -/
theorem max_running_never_exceeded (cfg : QMConfig) :
    (∀ l : List Job, Reachable cfg l → countActive l ≤ cfg.maxRunning) ∧
      (∀ (subOracle : Job → Option Nat) (l : List Job),
        pollSubmitCount cfg subOracle l ≤ cfg.maxRunning - countActive l) := by
  constructor
  · intro l hR
    induction hR with
    | init => simp [countActive]
    | enq h ih =>
      simpa [enqueue, countActive, freshJob, isActive] using ih
    | poll subO statO h ih =>
      rename_i l2
      have hA : countActive
          (submitPhase cfg subO l2 (cfg.maxRunning - countActive l2)).1 ≤
          cfg.maxRunning := by
        calc countActive (submitPhase cfg subO l2
              (cfg.maxRunning - countActive l2)).1
            ≤ countActive l2 + (cfg.maxRunning - countActive l2) :=
              submitPhase_active_le cfg subO l2 _
          _ = cfg.maxRunning := Nat.add_sub_cancel' ih
      simp only [pollOnce]
      exact le_trans
        (countActive_map_le _ (isActive_retryResolve_le cfg) _)
        (le_trans
          (countActive_map_le _ (fun j => isActive_statusRes_le cfg (statO j) j) _)
          hA)
    | kill ok i h ih =>
      exact le_trans (countActive_killAt_le cfg ok i _) ih
  · intro subOracle l
    exact submitPhase_count_le cfg subOracle l _

/-- Witness for C8: the empty queue is reachable and satisfies the
concurrency bound. -/
theorem max_running_never_exceeded_witness :
    countActive [] ≤ (⟨2, 2, 2⟩ : QMConfig).maxRunning :=
  (max_running_never_exceeded ⟨2, 2, 2⟩).1 [] Reachable.init

/-- Below the stall threshold, consecutive UNKNOWN polls only advance
the job's stall counter. -/
theorem unknownSteps_below_threshold (cfg : QMConfig) :
    ∀ (i : Nat) (j : Job), i ≤ cfg.stallThreshold →
      (j.state = .submitted ∨ j.state = .running) → j.unknownCount = 0 →
      unknownSteps cfg i j = { j with unknownCount := i } := by
  intro i
  induction i with
  | zero =>
    intro j _ _ h0
    rw [unknownSteps, ← h0]
  | succ i ih =>
    intro j hi hact h0
    rw [unknownSteps, ih j (Nat.le_of_succ_le hi) hact h0]
    rcases j with ⟨st, a, e, x, u⟩
    rcases hact with h | h <;> simp only at h <;> subst h <;>
      simp [applyEvent, Nat.not_lt.mpr hi]

/-- C9: a driver status call returning UNKNOWN leaves the job's state
unchanged while the stall threshold is not yet exceeded; and a tracked
job observed UNKNOWN for `stall_threshold + 1` consecutive polls is
escalated to `FAILED` (entering the retry/dead policy) rather than
remaining non-terminal forever. -/
theorem unknown_transient_stall_escalates (cfg : QMConfig) :
    (∀ j : Job, j.unknownCount + 1 ≤ cfg.stallThreshold →
        (applyEvent cfg (.statusRes .unknown) j).state = j.state) ∧
      (∀ j : Job, (j.state = .submitted ∨ j.state = .running) →
        j.unknownCount = 0 →
        (unknownSteps cfg (cfg.stallThreshold + 1) j).state = .failed) := by
  constructor
  · intro j hcount
    rcases j with ⟨st, a, e, x, u⟩
    have hcount2 : u + 1 ≤ cfg.stallThreshold := hcount
    cases st <;> simp [applyEvent, Nat.not_lt.mpr hcount2]
  · intro j hact h0
    rw [unknownSteps, unknownSteps_below_threshold cfg cfg.stallThreshold j
      le_rfl hact h0]
    rcases j with ⟨st, a, e, x, u⟩
    rcases hact with h | h <;> simp only at h <;> subst h <;>
      simp [applyEvent]

/-- Witness for C9: with stall threshold 1, one UNKNOWN poll leaves a
running job running, and 2 consecutive UNKNOWN polls escalate a
submitted job to failed. -/
theorem unknown_transient_stall_escalates_witness :
    (applyEvent ⟨2, 2, 1⟩ (.statusRes .unknown)
        ⟨.running, 1, none, some 4, 0⟩).state =
        (⟨.running, 1, none, some 4, 0⟩ : Job).state ∧
      (unknownSteps ⟨2, 2, 1⟩ 2 ⟨.submitted, 1, none, some 4, 0⟩).state =
        JobState.failed :=
  ⟨(unknown_transient_stall_escalates ⟨2, 2, 1⟩).1 _ (by decide),
   (unknown_transient_stall_escalates ⟨2, 2, 1⟩).2 _ (Or.inl rfl) rfl⟩

end ErtQueue

namespace ErtAnalysis

/-- C10: `has_observations` is `false` after default construction and
`true` after construction through the data-carrying constructor, and
since these are the only two constructors of the class, an
`update_data_type` object has `has_observations = true` exactly when it
was built from observation data. -/
theorem has_observations_iff_data_constructor {M RS : Type} [Inhabited M] :
    (constructUpdateData
        (UpdateCtorCall.defaultCtor : UpdateCtorCall M RS)).has_observations
        = false ∧
      (∀ (S_in E_in D_in R_in : M) (A_in : Option M)
          (awrs : List (M × RS)) (mask : List Bool),
        (constructUpdateData
          (UpdateCtorCall.dataCtor S_in E_in D_in R_in A_in awrs
            mask)).has_observations = true) ∧
      (∀ c : UpdateCtorCall M RS,
        (constructUpdateData c).has_observations = c.isDataCtor) := by
  refine ⟨rfl, fun _ _ _ _ _ _ _ => rfl, fun c => ?_⟩
  cases c <;> rfl

end ErtAnalysis
